import Mathlib

/-!
Verification development for the DiamondBCH repository (BCH DeFiHub:
liquid staking, yield splitting, and a simplified AMM, driven by
CashTokens NFT commitments).

The TypeScript client scripts carry all of the commitment codec and
transition-construction logic that this development models:

* `src/stake.ts` / `src/unstake.ts` — stake/unstake flows for the
  LiquidStake facet (receipt NFT commitment = staked amount);
* `src/yield-split.ts` — split/merge/redeemPT/claimYield flows for the
  YieldSplit facet (PT = principal+expiry, YT = yield+expiry);
* `src/dex.ts` — addLiquidity/removeLiquidity/swap/collect flows for the
  DEX facet (position NFT = tickLower+tickUpper+liquidity).

Commitments are hex strings in the scripts; two hex characters encode one
byte, and every slice boundary used by the parsers falls on a byte
boundary, so we model commitments as lists of byte values (`List ℕ`,
each element < 256).  `slice(0, 16)` on the hex string is `take 8` on
bytes, `slice(16, 24)` is `drop 8` then `take 4`, and so on.
-/

namespace DiamondBCH

/-- Big-endian fixed-width byte encoding of a natural number, `w` bytes,
most significant byte first (Node `Buffer.writeUInt32BE` /
`writeBigUInt64BE` semantics; in-range values are assumed by the theorems
that use it, matching Node's range check). -/
def toBytesBE : ℕ → ℕ → List ℕ
  | 0, _ => []
  | w + 1, n => (n / 256 ^ w) % 256 :: toBytesBE w n

/-- Little-endian fixed-width byte encoding, least significant byte first
(Node `Buffer.writeBigUInt64LE` semantics).  This is what `src/stake.ts`
uses for the stake-receipt commitment. -/
def toBytesLE : ℕ → ℕ → List ℕ
  | 0, _ => []
  | w + 1, n => n % 256 :: toBytesLE w (n / 256)

/-- Big-endian interpretation of a byte string as a natural number.
This is what `BigInt('0x' + commitment)` and `parseInt(hex, 16)` compute
in the scripts. -/
def fromBytesBE (l : List ℕ) : ℕ :=
  l.foldl (fun acc b => acc * 256 + b) 0

/-! ### Commitment builders and parsers

From `src/yield-split.ts` (`buildPTCommitment`, `parsePTCommitment`,
`buildYTCommitment`, `parseYTCommitment`) and `src/dex.ts`
(`buildPositionCommitment`, `parsePositionCommitment`).  The builders
call Node `writeBigUInt64BE` / `writeUInt32BE`, which throw a
`RangeError` on out-of-range fields; the theorems below therefore carry
in-range hypotheses wherever a builder is applied. -/

/-- `src/yield-split.ts` `buildPTCommitment`: 8 bytes principal (BE) then
4 bytes expiry (BE), as a hex string. -/
def buildPTCommitment (principal expiry : ℕ) : List ℕ :=
  toBytesBE 8 principal ++ toBytesBE 4 expiry

/-- `src/yield-split.ts` `parsePTCommitment`: `slice(0,16)` hex (8 bytes)
as principal, `slice(16,24)` hex (4 bytes) as expiry, both big-endian. -/
def parsePTCommitment (c : List ℕ) : ℕ × ℕ :=
  (fromBytesBE (c.take 8), fromBytesBE ((c.drop 8).take 4))

/-- `src/yield-split.ts` `buildYTCommitment`: 8 bytes accrued yield (BE)
then 4 bytes expiry (BE). -/
def buildYTCommitment (yieldAccrued expiry : ℕ) : List ℕ :=
  toBytesBE 8 yieldAccrued ++ toBytesBE 4 expiry

/-- `src/yield-split.ts` `parseYTCommitment`: 8 bytes yield then 4 bytes
expiry, big-endian. -/
def parseYTCommitment (c : List ℕ) : ℕ × ℕ :=
  (fromBytesBE (c.take 8), fromBytesBE ((c.drop 8).take 4))

/-- `src/dex.ts` `buildPositionCommitment`: 4 bytes tickLower, 4 bytes
tickUpper, 8 bytes liquidity, all big-endian. -/
def buildPositionCommitment (tickLower tickUpper liquidity : ℕ) : List ℕ :=
  toBytesBE 4 tickLower ++ toBytesBE 4 tickUpper ++ toBytesBE 8 liquidity

/-- `src/dex.ts` `parsePositionCommitment`: hex `slice(0,8)` (4 bytes)
tickLower, `slice(8,16)` (4 bytes) tickUpper, `slice(16,32)` (8 bytes)
liquidity, all big-endian. -/
def parsePositionCommitment (c : List ℕ) : ℕ × ℕ × ℕ :=
  (fromBytesBE (c.take 4), fromBytesBE ((c.drop 4).take 4),
    fromBytesBE ((c.drop 8).take 8))

/-! ### DEX facet (`src/dex.ts`) -/

/-- `src/dex.ts` `calculateLiquidity`: `min(amount0, amount1)`. -/
def calculateLiquidity (amount0 amount1 : ℕ) : ℕ :=
  if amount0 < amount1 then amount0 else amount1

/-- `src/dex.ts` `calculateSwapOutput`:
`amountIn - amountIn * BigInt(fee) / BigInt(10000)`.  JavaScript BigInt
division truncates toward zero, which is `Int.tdiv`.  The `zeroForOne`
parameter is accepted but unused, exactly as in the source.  The source
defaults `fee` to 30 basis points. -/
def calculateSwapOutput (amountIn : ℤ) (zeroForOne : Bool) (fee : ℤ) : ℤ :=
  amountIn - Int.tdiv (amountIn * fee) 10000

/-- `src/dex.ts` `main`, `case 'add'`: reads the amounts and ticks,
computes `liquidity = calculateLiquidity(amount0, amount1)`, and builds
the position NFT commitment with `buildPositionCommitment` — with no
validation of the tick range anywhere on the path.  The returned value
is the commitment of the minted position NFT output. -/
def handleAddLiquidity (amount0 amount1 tickLower tickUpper : ℕ) : List ℕ :=
  buildPositionCommitment tickLower tickUpper (calculateLiquidity amount0 amount1)

/-! ### LiquidStake facet (`src/stake.ts`, `src/unstake.ts`) -/

/-- `src/stake.ts`: the receipt commitment is the staked amount written
with `writeBigUInt64LE` — little-endian, 8 bytes. -/
def stakeReceiptCommitment (stakeAmount : ℕ) : List ℕ :=
  toBytesLE 8 stakeAmount

/-- `src/stake.ts` stake transaction: the minting/reserve UTXO value
grows by the staked amount, and the user receives a receipt NFT whose
commitment is `stakeReceiptCommitment stakeAmount`.  Returns
(new reserve, receipt commitment). -/
def stakeTx (reserve stakeAmount : ℕ) : ℕ × List ℕ :=
  (reserve + stakeAmount, stakeReceiptCommitment stakeAmount)

/-- `src/unstake.ts`: the staked amount is decoded from the receipt
commitment with `BigInt('0x' + commitment)` — that is, the whole
commitment read big-endian. -/
def unstakeDecodeAmount (commitment : List ℕ) : ℕ :=
  fromBytesBE commitment

/-- `src/unstake.ts` unstake transaction: decode the staked amount from
the receipt, fail if the reserve cannot cover it, otherwise pay the
decoded amount to the holder and shrink the reserve by it (the receipt
NFT is burned: it appears in no output).  Returns
(new reserve, payout). -/
def unstakeTx (reserve : ℕ) (commitment : List ℕ) : Option (ℕ × ℕ) :=
  let stakedAmount := unstakeDecodeAmount commitment
  if reserve < stakedAmount then none
  else some (reserve - stakedAmount, stakedAmount)

/-! ### YieldSplit facet (`src/yield-split.ts`) -/

/-- `src/yield-split.ts` `handleMerge`: parses the PT and YT commitments
(the YT data is only logged), then builds the output lstBCH receipt
commitment as the 8-byte big-endian encoding of the PT principal and
sends the transaction.  No comparison of the two expiries is performed
anywhere on the path: the function cannot fail on the commitment data. -/
def handleMerge (ptCommitment ytCommitment : List ℕ) : List ℕ :=
  toBytesBE 8 (parsePTCommitment ptCommitment).1

/-- A transaction output as constructed by the scripts: a satoshi amount
and an optional NFT commitment. -/
structure TxOutput where
  amount : ℕ
  nftCommitment : Option (List ℕ)
deriving DecidableEq, Repr

/-- `src/yield-split.ts` `handleRedeemPT`: parses the PT commitment; if
`currentTime < expiry` the script aborts ("Cannot redeem yet"),
otherwise it sends a transaction with a single output paying the
principal to the owner and carrying no token (the PT NFT is burned). -/
def handleRedeemPT (ptCommitment : List ℕ) (currentTime : ℕ) :
    Option (List TxOutput) :=
  let ptData := parsePTCommitment ptCommitment
  if currentTime < ptData.2 then none
  else some [{ amount := ptData.1, nftCommitment := none }]

/-- Result of `handleClaimYield`: after expiry the YT is burned and its
accrued yield paid out; before expiry the YT is replaced by one with an
updated commitment. -/
inductive ClaimOutcome where
  | burned (payout : ℕ)
  | updated (newYTCommitment : List ℕ)
deriving DecidableEq, Repr

/-- `src/yield-split.ts` `handleClaimYield`.  After expiry
(`currentTime >= expiry`) the YT is burned and the previously accrued
yield paid out.  Before expiry the script computes
`elapsed = currentTime` and
`newYieldAccrued = yieldAccrued + BigInt(Number(elapsed) * yieldRate / 10000)`.
The inner arithmetic is IEEE double arithmetic, which is exact for the
integer ranges involved (products below 2^53); `BigInt(x)` throws a
`RangeError` unless `x` is an integer, i.e. unless
`elapsed * yieldRate` is divisible by 10000 — there is no flooring.
`buildYTCommitment` then throws unless the new yield fits 8 bytes.
Either exception aborts the operation (`none`). -/
def handleClaimYield (ytCommitment : List ℕ) (currentTime yieldRate : ℕ) :
    Option ClaimOutcome :=
  let ytData := parseYTCommitment ytCommitment
  if ytData.2 ≤ currentTime then
    some (.burned ytData.1)
  else
    let elapsed := currentTime
    let newYieldAccrued := ytData.1 + elapsed * yieldRate / 10000
    if elapsed * yieldRate % 10000 = 0 ∧ newYieldAccrued < 2 ^ 64 then
      some (.updated (buildYTCommitment newYieldAccrued ytData.2))
    else
      none

/-- One pre-expiry `claimYield` round-trip on the YT commitment: succeeds
exactly when `handleClaimYield` replaces the YT with an updated one. -/
def claimYieldStep (yieldRate : ℕ) (c : List ℕ) (t : ℕ) : Option (List ℕ) :=
  match handleClaimYield c t yieldRate with
  | some (.updated c') => some c'
  | _ => none

/-- A sequence of pre-expiry `claimYield` operations at the given times,
each consuming the YT produced by the previous one. -/
def claimYieldRun (yieldRate : ℕ) (c : List ℕ) : List ℕ → Option (List ℕ)
  | [] => some c
  | t :: ts =>
    match claimYieldStep yieldRate c t with
    | some c' => claimYieldRun yieldRate c' ts
    | none => none

/-! ### Byte-codec lemmas -/

theorem fromBytesBE_nil : fromBytesBE [] = 0 := rfl

theorem fromBytesBE_foldl (l : List ℕ) (a : ℕ) :
    l.foldl (fun acc b => acc * 256 + b) a = a * 256 ^ l.length + fromBytesBE l := by
  induction l generalizing a with
  | nil => simp [fromBytesBE]
  | cons b t ih =>
    simp only [List.foldl_cons, List.length_cons, fromBytesBE]
    rw [ih (a * 256 + b), ih (0 * 256 + b)]
    ring

theorem fromBytesBE_cons (b : ℕ) (l : List ℕ) :
    fromBytesBE (b :: l) = b * 256 ^ l.length + fromBytesBE l := by
  have h := fromBytesBE_foldl l b
  simp only [fromBytesBE, List.foldl_cons]
  simpa using h

theorem toBytesBE_length (w n : ℕ) : (toBytesBE w n).length = w := by
  induction w generalizing n with
  | zero => rfl
  | succ w ih => simp [toBytesBE, ih]

theorem mod_mul_pow_succ (n w : ℕ) :
    n % 256 ^ (w + 1) = (n / 256 ^ w) % 256 * 256 ^ w + n % 256 ^ w := by
  have hn : 256 ^ w * (n / 256 ^ w) + n % 256 ^ w = n := Nat.div_add_mod n (256 ^ w)
  have hq : 256 * (n / 256 ^ w / 256) + (n / 256 ^ w) % 256 = n / 256 ^ w :=
    Nat.div_add_mod (n / 256 ^ w) 256
  have hpos : 0 < 256 ^ w := pow_pos (by norm_num) w
  have hlt : (n / 256 ^ w) % 256 * 256 ^ w + n % 256 ^ w < 256 ^ (w + 1) := by
    have h1 : (n / 256 ^ w) % 256 < 256 := Nat.mod_lt _ (by norm_num)
    have h2 : n % 256 ^ w < 256 ^ w := Nat.mod_lt _ hpos
    have h3 : (n / 256 ^ w) % 256 * 256 ^ w ≤ 255 * 256 ^ w :=
      Nat.mul_le_mul_right _ (by omega)
    have h4 : 255 * 256 ^ w + 256 ^ w = 256 ^ (w + 1) := by ring
    omega
  have hrepr : n = (n / 256 ^ w) % 256 * 256 ^ w + n % 256 ^ w
      + n / 256 ^ w / 256 * 256 ^ (w + 1) := by
    calc n = 256 ^ w * (n / 256 ^ w) + n % 256 ^ w := hn.symm
    _ = 256 ^ w * (256 * (n / 256 ^ w / 256) + (n / 256 ^ w) % 256) + n % 256 ^ w := by
        rw [hq]
    _ = _ := by ring
  conv_lhs => rw [hrepr]
  rw [Nat.add_mul_mod_self_right, Nat.mod_eq_of_lt hlt]

theorem fromBytesBE_toBytesBE (w n : ℕ) :
    fromBytesBE (toBytesBE w n) = n % 256 ^ w := by
  induction w generalizing n with
  | zero => simp [toBytesBE, fromBytesBE, Nat.mod_one]
  | succ w ih =>
    rw [toBytesBE, fromBytesBE_cons, toBytesBE_length, ih, mod_mul_pow_succ]

theorem fromBytesBE_toBytesBE_of_lt {w n : ℕ} (h : n < 256 ^ w) :
    fromBytesBE (toBytesBE w n) = n := by
  rw [fromBytesBE_toBytesBE, Nat.mod_eq_of_lt h]

theorem take_len_append (l₁ l₂ : List ℕ) (k : ℕ) (h : l₁.length = k) :
    (l₁ ++ l₂).take k = l₁ := by
  subst h; exact List.take_left l₁ l₂

theorem drop_len_append (l₁ l₂ : List ℕ) (k : ℕ) (h : l₁.length = k) :
    (l₁ ++ l₂).drop k = l₂ := by
  subst h; exact List.drop_left l₁ l₂

theorem take_of_len_eq (l : List ℕ) (k : ℕ) (h : l.length = k) :
    l.take k = l := by
  subst h; exact List.take_length l

theorem pow256_8 : (256 : ℕ) ^ 8 = 2 ^ 64 := by norm_num

theorem pow256_4 : (256 : ℕ) ^ 4 = 2 ^ 32 := by norm_num

/-! ### Parsing a freshly built commitment recovers the fields -/

theorem parsePTCommitment_build (P E : ℕ) (hP : P < 2 ^ 64) (hE : E < 2 ^ 32) :
    parsePTCommitment (buildPTCommitment P E) = (P, E) := by
  unfold parsePTCommitment buildPTCommitment
  rw [take_len_append _ _ 8 (toBytesBE_length 8 P),
    drop_len_append _ _ 8 (toBytesBE_length 8 P),
    take_of_len_eq _ 4 (toBytesBE_length 4 E),
    fromBytesBE_toBytesBE_of_lt (by rw [pow256_8]; exact hP),
    fromBytesBE_toBytesBE_of_lt (by rw [pow256_4]; exact hE)]

theorem parseYTCommitment_build (Y E : ℕ) (hY : Y < 2 ^ 64) (hE : E < 2 ^ 32) :
    parseYTCommitment (buildYTCommitment Y E) = (Y, E) := by
  unfold parseYTCommitment buildYTCommitment
  rw [take_len_append _ _ 8 (toBytesBE_length 8 Y),
    drop_len_append _ _ 8 (toBytesBE_length 8 Y),
    take_of_len_eq _ 4 (toBytesBE_length 4 E),
    fromBytesBE_toBytesBE_of_lt (by rw [pow256_8]; exact hY),
    fromBytesBE_toBytesBE_of_lt (by rw [pow256_4]; exact hE)]

/-- The yield field of a freshly built YT commitment, with no range
condition on the expiry (the yield bytes do not depend on it). -/
theorem parseYTCommitment_build_fst (Y E : ℕ) (hY : Y < 2 ^ 64) :
    (parseYTCommitment (buildYTCommitment Y E)).1 = Y := by
  unfold parseYTCommitment buildYTCommitment
  rw [take_len_append _ _ 8 (toBytesBE_length 8 Y),
    fromBytesBE_toBytesBE_of_lt (by rw [pow256_8]; exact hY)]

theorem parsePositionCommitment_build (tl tu L : ℕ)
    (htl : tl < 2 ^ 32) (htu : tu < 2 ^ 32) (hL : L < 2 ^ 64) :
    parsePositionCommitment (buildPositionCommitment tl tu L) = (tl, tu, L) := by
  unfold parsePositionCommitment buildPositionCommitment
  have hlen8 : (toBytesBE 4 tl ++ toBytesBE 4 tu).length = 8 := by
    rw [List.length_append, toBytesBE_length, toBytesBE_length]
  rw [drop_len_append _ _ 8 hlen8,
    take_of_len_eq _ 8 (toBytesBE_length 8 L),
    List.append_assoc,
    take_len_append _ _ 4 (toBytesBE_length 4 tl),
    drop_len_append _ _ 4 (toBytesBE_length 4 tl),
    take_len_append _ _ 4 (toBytesBE_length 4 tu),
    fromBytesBE_toBytesBE_of_lt (by rw [pow256_4]; exact htl),
    fromBytesBE_toBytesBE_of_lt (by rw [pow256_4]; exact htu),
    fromBytesBE_toBytesBE_of_lt (by rw [pow256_8]; exact hL)]

/-! ### Yield-claim sequence lemmas -/

theorem claimYieldStep_mono (rate t : ℕ) (c c' : List ℕ)
    (h : claimYieldStep rate c t = some c') :
    (parseYTCommitment c).1 ≤ (parseYTCommitment c').1 := by
  unfold claimYieldStep handleClaimYield at h
  by_cases h1 : (parseYTCommitment c).2 ≤ t
  · simp [h1] at h
  · by_cases hA : t * rate % 10000 = 0
    · by_cases hB : (parseYTCommitment c).1 + t * rate / 10000 < 18446744073709551616
      · simp [h1, hA, hB] at h
        rw [← h, parseYTCommitment_build_fst _ _
          ((by norm_num : (18446744073709551616 : ℕ) = 2 ^ 64) ▸ hB)]
        exact Nat.le_add_right _ _
      · simp [h1, hA, hB] at h
    · simp [h1, hA] at h

theorem claimYieldRun_mono (rate : ℕ) (ts : List ℕ) :
    ∀ c c', claimYieldRun rate c ts = some c' →
      (parseYTCommitment c).1 ≤ (parseYTCommitment c').1 := by
  induction ts with
  | nil =>
    intro c c' h
    simp [claimYieldRun] at h
    rw [h]
  | cons t ts ih =>
    intro c c' h
    unfold claimYieldRun at h
    cases hstep : claimYieldStep rate c t with
    | none => rw [hstep] at h; exact absurd h (by simp)
    | some c'' =>
      rw [hstep] at h
      exact le_trans (claimYieldStep_mono rate t c c'' hstep) (ih c'' c' h)

/-! ## Claim theorems -/

/-- C1 counterexample: `handleMerge` does not compare the PT and YT
expiries.  With PT (principal 50000, expiry 500000) and YT (yield 0,
expiry 400000) — mismatched expiries — the merge still produces the
lstBCH receipt commitment for the PT principal instead of failing with
an `IncompatibleExpiry` error. -/
theorem merge_mismatched_expiry_not_rejected :
    (500000 : ℕ) ≠ 400000 ∧
    handleMerge (buildPTCommitment 50000 500000) (buildYTCommitment 0 400000)
      = toBytesBE 8 50000 := by
  constructor
  · decide
  · decide

/-- C1 (amended): `handleMerge` performs no expiry comparison at all.
For every PT (P, Ept) with in-range fields and every YT (Y, Eyt) —
matching or mismatched expiries alike — the merge succeeds and returns
the receipt commitment encoding exactly P. -/
theorem merge_ignores_expiry (P Ept Y Eyt : ℕ)
    (hP : P < 2 ^ 64) (hE : Ept < 2 ^ 32) :
    handleMerge (buildPTCommitment P Ept) (buildYTCommitment Y Eyt)
      = toBytesBE 8 P := by
  unfold handleMerge
  rw [parsePTCommitment_build P Ept hP hE]

/-- C1 witness: the amended merge theorem at a concrete mismatched pair. -/
theorem merge_ignores_expiry_witness :
    handleMerge (buildPTCommitment 123 777) (buildYTCommitment 5 888)
      = toBytesBE 8 123 :=
  merge_ignores_expiry 123 777 5 888 (by decide) (by decide)

/-- C2 (code bug evaluated): staking 50000 sats (reserve 100000) writes
the receipt commitment little-endian, and the unstake path decodes it
big-endian as 5819495143492812800 — so the immediate unstake fails on
the reserve check instead of paying back 50000 and restoring the
reserve. -/
theorem stake_unstake_not_inverse :
    unstakeDecodeAmount (stakeTx 100000 50000).2 = 5819495143492812800 ∧
    unstakeTx (stakeTx 100000 50000).1 (stakeTx 100000 50000).2 = none := by
  decide

/-- C3 (code bug evaluated): the stake path writes the 8-byte staked
amount little-endian, not big-endian: for amount 50000 the receipt
commitment differs from the big-endian encoding, and the big-endian
decode used by the unstake path recovers 50000 only from the big-endian
encoding, not from the commitment the stake path actually writes. -/
theorem stake_commitment_not_big_endian :
    stakeReceiptCommitment 50000 ≠ toBytesBE 8 50000 ∧
    unstakeDecodeAmount (toBytesBE 8 50000) = 50000 ∧
    unstakeDecodeAmount (stakeReceiptCommitment 50000) ≠ 50000 := by
  decide

/-- C4 counterexample: with yield 0, expiry 500000, currentTime 3 and
yieldRate 500, `3 * 500 / 10000` is not an integer, so the pre-expiry
claim fails (the `BigInt` conversion throws) instead of producing the
floored update the claim predicts. -/
theorem claimYield_inexact_division_fails :
    handleClaimYield (buildYTCommitment 0 500000) 3 500 = none ∧
    (none : Option ClaimOutcome) ≠ some (ClaimOutcome.updated
      (buildYTCommitment (0 + 3 * 500 / 10000) 500000)) := by
  decide

/-- C4 (amended): before expiry, when `currentTime * yieldRate` is an
exact multiple of 10000 and the updated yield fits 8 bytes, `claimYield`
produces an updated YT with the same expiry and yield exactly
`Y + currentTime * yieldRate / 10000` (elapsed is the raw currentTime),
and the yield field never decreases; otherwise the operation fails
rather than flooring. -/
theorem claimYield_pre_expiry (Y E t rate : ℕ)
    (hY : Y < 2 ^ 64) (hE : E < 2 ^ 32) (ht : t < E)
    (hdiv : t * rate % 10000 = 0)
    (hfit : Y + t * rate / 10000 < 2 ^ 64) :
    handleClaimYield (buildYTCommitment Y E) t rate
      = some (ClaimOutcome.updated
          (buildYTCommitment (Y + t * rate / 10000) E)) ∧
    Y ≤ Y + t * rate / 10000 := by
  have hfit' : Y + t * rate / 10000 < 18446744073709551616 := by
    rw [show (18446744073709551616 : ℕ) = 2 ^ 64 by norm_num]
    exact hfit
  constructor
  · unfold handleClaimYield
    rw [parseYTCommitment_build Y E hY hE]
    simp [Nat.not_le.mpr ht, hdiv, hfit']
  · exact Nat.le_add_right _ _

/-- C4 witness: the amended claim at yield 0, expiry 500000,
currentTime 250000, yieldRate 500 (the script defaults). -/
theorem claimYield_pre_expiry_witness :
    handleClaimYield (buildYTCommitment 0 500000) 250000 500
      = some (ClaimOutcome.updated
          (buildYTCommitment (0 + 250000 * 500 / 10000) 500000)) ∧
    (0 : ℕ) ≤ 0 + 250000 * 500 / 10000 :=
  claimYield_pre_expiry 0 500000 250000 500 (by decide) (by decide)
    (by decide) (by decide) (by decide)

/-- C5: commitment codec round-trip.  For in-range fields (ticks and
expiry in 4 unsigned bytes, liquidity/principal/yield in 8 unsigned
bytes), parsing a built commitment returns exactly the original fields,
for the position, PT and YT codecs alike. -/
theorem commitment_roundtrip (tl tu L P E Y : ℕ)
    (htl : tl < 2 ^ 32) (htu : tu < 2 ^ 32) (hL : L < 2 ^ 64)
    (hP : P < 2 ^ 64) (hY : Y < 2 ^ 64) (hE : E < 2 ^ 32) :
    parsePositionCommitment (buildPositionCommitment tl tu L) = (tl, tu, L) ∧
    parsePTCommitment (buildPTCommitment P E) = (P, E) ∧
    parseYTCommitment (buildYTCommitment Y E) = (Y, E) :=
  ⟨parsePositionCommitment_build tl tu L htl htu hL,
    parsePTCommitment_build P E hP hE,
    parseYTCommitment_build Y E hY hE⟩

/-- C5 witness: the round-trip at concrete fields. -/
theorem commitment_roundtrip_witness :
    parsePositionCommitment (buildPositionCommitment 0 100 1000000)
      = (0, 100, 1000000) ∧
    parsePTCommitment (buildPTCommitment 50000 500000) = (50000, 500000) ∧
    parseYTCommitment (buildYTCommitment 1000 500000) = (1000, 500000) :=
  commitment_roundtrip 0 100 1000000 50000 500000 1000
    (by decide) (by decide) (by decide) (by decide) (by decide) (by decide)

/-- C6: for nonnegative `amountIn` and `fee`, the swap quote is
`amountIn` minus the fee `floor(amountIn * fee / 10000)` (BigInt
division truncating toward zero agrees with floor division on
nonnegative operands); in particular the quote for 10000 at 30 bps is
9970. -/
theorem calculateSwapOutput_fee_formula (amountIn fee : ℤ) (z : Bool)
    (hIn : 0 ≤ amountIn) (hFee : 0 ≤ fee) :
    calculateSwapOutput amountIn z fee = amountIn - amountIn * fee / 10000 ∧
    calculateSwapOutput 10000 z 30 = 9970 := by
  constructor
  · unfold calculateSwapOutput
    rw [Int.tdiv_eq_ediv (mul_nonneg hIn hFee) (by norm_num)]
  · rfl

/-- C6 witness: the fee formula at `amountIn = 10000`, `fee = 30`. -/
theorem calculateSwapOutput_fee_formula_witness :
    calculateSwapOutput 10000 true 30 = 10000 - 10000 * 30 / 10000 ∧
    calculateSwapOutput 10000 true 30 = 9970 :=
  calculateSwapOutput_fee_formula 10000 30 true (by decide) (by decide)

/-- C7: redemption gating.  For every in-range PT (P, E), `redeemPT`
fails whenever `currentTime < E` (which includes `currentTime = E - 1`)
and, whenever `currentTime ≥ E`, succeeds with a single output paying
exactly P and carrying no token — the PT appears in no output. -/
theorem redeemPT_gating (P E t : ℕ) (hP : P < 2 ^ 64) (hE : E < 2 ^ 32) :
    (t < E → handleRedeemPT (buildPTCommitment P E) t = none) ∧
    (E ≤ t → handleRedeemPT (buildPTCommitment P E) t
        = some [{ amount := P, nftCommitment := none }]) := by
  unfold handleRedeemPT
  rw [parsePTCommitment_build P E hP hE]
  constructor
  · intro h
    simp [h]
  · intro h
    simp [Nat.not_lt.mpr h]

/-- C7 witness: gating at expiry 500000 — failing at time 499999
(= expiry − 1) and succeeding at time 500000 with payout 50000. -/
theorem redeemPT_gating_witness :
    handleRedeemPT (buildPTCommitment 50000 500000) 499999 = none ∧
    handleRedeemPT (buildPTCommitment 50000 500000) 500000
      = some [{ amount := 50000, nftCommitment := none }] :=
  ⟨(redeemPT_gating 50000 500000 499999 (by decide) (by decide)).1 (by decide),
    (redeemPT_gating 50000 500000 500000 (by decide) (by decide)).2 (by decide)⟩

/-- C8 counterexample: `addLiquidity` with `tickLower = 100 ≥ 50 =
tickUpper` does not fail: it constructs a position commitment whose
parsed tick range is exactly the inverted (100, 50) with
liquidity 100000. -/
theorem addLiquidity_inverted_ticks_accepted :
    parsePositionCommitment (handleAddLiquidity 100000 100000 100 50)
      = (100, 50, 100000) ∧ ¬ (100 : ℕ) < 50 := by
  decide

/-- C8 (amended): the add-liquidity path performs no tick-range
validation.  For all in-range amounts and ticks — including
`tickLower ≥ tickUpper` — it constructs a position commitment carrying
exactly the given ticks and `liquidity = min(amount0, amount1)`;
no `InvalidTickRange` failure exists on the path. -/
theorem addLiquidity_no_tick_validation (a0 a1 tl tu : ℕ)
    (htl : tl < 2 ^ 32) (htu : tu < 2 ^ 32)
    (h0 : a0 < 2 ^ 64) (h1 : a1 < 2 ^ 64) :
    parsePositionCommitment (handleAddLiquidity a0 a1 tl tu)
      = (tl, tu, calculateLiquidity a0 a1) := by
  unfold handleAddLiquidity
  exact parsePositionCommitment_build tl tu _ htl htu
    (by unfold calculateLiquidity; split
        · exact h0
        · exact h1)

/-- C8 witness: the amended claim at inverted ticks (9, 2). -/
theorem addLiquidity_no_tick_validation_witness :
    parsePositionCommitment (handleAddLiquidity 5 7 9 2)
      = (9, 2, calculateLiquidity 5 7) :=
  addLiquidity_no_tick_validation 5 7 9 2
    (by decide) (by decide) (by decide) (by decide)

/-- C9 counterexample: claiming at `currentTime = expiry` (yield rate
500, expiry 500000, nothing accrued yet) burns the YT and pays out only
the previously accrued 0 — not the maximum full-term yield
`500000 * 500 / 10000 = 25000` the claim predicts. -/
theorem claimYield_at_expiry_pays_accrued_only :
    handleClaimYield (buildYTCommitment 0 500000) 500000 500
      = some (ClaimOutcome.burned 0) ∧
    (0 : ℕ) ≠ 500000 * 500 / 10000 := by
  decide

/-- C9 (amended): over every successful sequence of pre-expiry
`claimYield` operations the accrued-yield field of the YT commitments is
non-decreasing; and at `currentTime = expiry` the claim burns the YT and
pays out exactly the previously accrued yield (not the maximum term
yield). -/
theorem claimYield_monotone_and_expiry_payout :
    (∀ rate c ts c', claimYieldRun rate c ts = some c' →
        (parseYTCommitment c).1 ≤ (parseYTCommitment c').1) ∧
    (∀ Y E rate, Y < 2 ^ 64 → E < 2 ^ 32 →
        handleClaimYield (buildYTCommitment Y E) E rate
          = some (ClaimOutcome.burned Y)) := by
  constructor
  · intro rate c ts c' h
    exact claimYieldRun_mono rate ts c c' h
  · intro Y E rate hY hE
    unfold handleClaimYield
    rw [parseYTCommitment_build Y E hY hE]
    simp

/-- C9 witness: a concrete two-claim run (rate 10000, times 20 then 40)
whose yield field grows 0 → 60, and an at-expiry claim paying out the
accrued 7. -/
theorem claimYield_monotone_and_expiry_payout_witness :
    claimYieldRun 10000 (buildYTCommitment 0 500000) [20, 40]
      = some (buildYTCommitment 60 500000) ∧
    (parseYTCommitment (buildYTCommitment 0 500000)).1
      ≤ (parseYTCommitment (buildYTCommitment 60 500000)).1 ∧
    handleClaimYield (buildYTCommitment 7 500000) 500000 500
      = some (ClaimOutcome.burned 7) :=
  ⟨by decide,
    claimYield_monotone_and_expiry_payout.1 10000 (buildYTCommitment 0 500000)
      [20, 40] (buildYTCommitment 60 500000) (by decide),
    claimYield_monotone_and_expiry_payout.2 7 500000 500 (by decide) (by decide)⟩

/-- C10: the swap quote is independent of trade direction — the
`zeroForOne` argument has no influence on `calculateSwapOutput`
(two-run noninterference in that input). -/
theorem swap_direction_noninterference (amountIn fee : ℤ) :
    calculateSwapOutput amountIn true fee
      = calculateSwapOutput amountIn false fee := rfl

end DiamondBCH
